import Mathlib

/-!
# Tab Splitter background worker: shallow embedding

A shallow embedding of the background service worker (`background.js`) of the
Tab Splitter browser extension.  The worker validates requests, reads the
current window and tab metadata from the host browser, computes split
rectangles, issues window create/remove requests, and tracks a bounded
registry of "reference" windows.

Modelling choices:
* JavaScript argument values that flow into the validation checks are
  modelled by `JSVal` (`null`, `undefined`, or a number); `truthy` is the JS
  boolean coercion restricted to these values (`0`, `null` and `undefined`
  are falsy) and `isNumber` is `typeof x === 'number'`.
* The asynchronous host API is modelled by a `Host` record of oracles: each
  host call either succeeds with a value or fails (the promise rejects),
  encoded with `Option`.  `createWin`'s outer `Option` is rejection, the
  inner one covers the window object being absent (falsy) on resolution.
* Each operation is a pure function of the host oracle (and the reference
  registry where relevant) returning its result together with the list of
  window create/remove requests it issued, in order.
* Errors are named after the specification's error taxonomy; each
  constructor documents the source's error strings it covers.
* Numbers are `Int`.  `Math.floor (width / 2)` is `Int.fdiv width 2`
  (floor division).  `Math.floor (width * 0.2)` is modelled as
  `Int.fdiv width 5`; the source computes it in binary floating point,
  which can differ from exact division on widths far beyond screen sizes,
  and no property proved here depends on that value.
-/

/-- A JavaScript value arriving as a message argument: `null`, `undefined`,
or a number. -/
inductive JSVal where
  | vNull
  | vUndef
  | vNum (n : Int)
deriving DecidableEq, Repr

namespace JSVal

/-- JS boolean coercion (`!x` is `¬ truthy x`): `null`, `undefined` and `0`
are falsy. -/
def truthy : JSVal → Bool
  | vNull => false
  | vUndef => false
  | vNum n => n ≠ 0

/-- `typeof x === 'number'`. -/
def isNumber : JSVal → Bool
  | vNum _ => true
  | _ => false

/-- The numeric value of a `JSVal`, defaulting to `0` (only consulted after
`isNumber` has been checked). -/
def num : JSVal → Int
  | vNum n => n
  | _ => 0

end JSVal

/-- A tab as reported by the host (`chrome.tabs`): its id and active flag.
Title and url are not consulted by any modelled logic. -/
structure TabRef where
  id : Int
  active : Bool
deriving DecidableEq, Repr

/-- A window as reported by `chrome.windows.getCurrent({populate: true})`.
`tabs` is optional because the source guards it with `currentWindow.tabs || []`. -/
structure WindowDescriptor where
  id : Int
  left : Int
  top : Int
  width : Int
  height : Int
  tabs : Option (List TabRef)
deriving DecidableEq, Repr

/-- A rectangle passed to `chrome.windows.create`. -/
structure Rect where
  left : Int
  top : Int
  width : Int
  height : Int
deriving DecidableEq, Repr

/-- A window-mutating request issued to the host. -/
inductive Effect where
  | createWin (tabId : Int) (bounds : Rect) (focused : Bool)
  | removeWin (windowId : Int)
deriving DecidableEq, Repr

/-- The host browser, as a record of oracles for the calls the worker makes.
`none` is a rejected promise.  For `createWin`, `some none` is a resolved
call whose window object is absent (falsy), `some (some id)` a created
window with that id. -/
structure Host where
  getCurrent : Option WindowDescriptor
  getTab : Int → Option TabRef
  createWin : Int → Rect → Bool → Option (Option Int)
  removeOk : Int → Bool

/-- The specification's error taxonomy.  Each constructor lists the source
error strings it covers. -/
inductive CoreError where
  /-- 'Invalid tab IDs provided', 'Cannot split the same tab',
  'Invalid tab ID provided'. -/
  | invalidInput
  /-- 'Window too small to split effectively'. -/
  | windowTooSmall
  /-- 'One or both tabs not found', 'Invalid tab IDs or tabs not accessible',
  'Tab not found', 'Tab not accessible'. -/
  | tabNotFound
  /-- 'Need at least 2 tabs to split'. -/
  | insufficientTabs
  /-- 'Maximum of 3 reference windows allowed'. -/
  | referenceLimitReached
  /-- 'Window is not a tracked reference window'. -/
  | notTracked
  /-- any caught host exception surfaced as `error.message`. -/
  | hostOperationFailed
deriving DecidableEq, Repr

/-- A `{success, data | error}` response. -/
inductive Result (α : Type) where
  | ok (a : α)
  | err (e : CoreError)
deriving DecidableEq, Repr

/-- `Math.floor (width / 2)` of `splitWindow`. -/
def halfWidthOf (cw : WindowDescriptor) : Int :=
  Int.fdiv cw.width 2

/-- The left window bounds computed by `splitWindow`:
`{left, top, width: halfWidth, height}`. -/
def leftBoundsOf (cw : WindowDescriptor) : Rect :=
  ⟨cw.left, cw.top, halfWidthOf cw, cw.height⟩

/-- The right window bounds computed by `splitWindow`:
`{left: left + halfWidth, top, width: halfWidth, height}`. -/
def rightBoundsOf (cw : WindowDescriptor) : Rect :=
  ⟨cw.left + halfWidthOf cw, cw.top, halfWidthOf cw, cw.height⟩

/-- `splitWindow(leftTabId, rightTabId)`: validates the two ids, checks the
current window's dimensions, resolves both tabs, creates the two half-width
windows, and removes the original window when it held at most two tabs.
Returns the response together with the host requests issued. -/
def splitWindow (h : Host) (leftTabId rightTabId : JSVal) :
    Result (Int × Int) × List Effect :=
  if ¬ leftTabId.truthy ∨ ¬ rightTabId.truthy ∨
      ¬ leftTabId.isNumber ∨ ¬ rightTabId.isNumber then
    (.err .invalidInput, [])
  else if leftTabId = rightTabId then
    (.err .invalidInput, [])
  else
    match h.getCurrent with
    | none => (.err .hostOperationFailed, [])
    | some cw =>
      if cw.width < 400 ∨ cw.height < 300 then
        (.err .windowTooSmall, [])
      else
        match h.getTab leftTabId.num, h.getTab rightTabId.num with
        | none, _ => (.err .tabNotFound, [])
        | some _, none => (.err .tabNotFound, [])
        | some _, some _ =>
          let lb := leftBoundsOf cw
          let rb := rightBoundsOf cw
          let t1 := [Effect.createWin leftTabId.num lb true]
          match h.createWin leftTabId.num lb true with
          | none => (.err .hostOperationFailed, t1)
          | some lw =>
            let t2 := t1 ++ [Effect.createWin rightTabId.num rb false]
            match h.createWin rightTabId.num rb false with
            | none => (.err .hostOperationFailed, t2)
            | some rw =>
              match lw, rw with
              | some lwId, some rwId =>
                if (cw.tabs.getD []).length ≤ 2 then
                  let t3 := t2 ++ [Effect.removeWin cw.id]
                  if h.removeOk cw.id then (.ok (lwId, rwId), t3)
                  else (.err .hostOperationFailed, t3)
                else (.ok (lwId, rwId), t2)
              | _, _ => (.err .hostOperationFailed, t2)

/-- `getCurrentWindowTabs` body before its `try`/`catch`: the host call may
fail. -/
def getCurrentWindowTabsBody (h : Host) : Option (List TabRef) :=
  match h.getCurrent with
  | none => none
  | some cw => some (cw.tabs.getD [])

/-- `getCurrentWindowTabs()`: returns the current window's tabs, or `[]`
when the host call fails. -/
def getCurrentWindowTabs (h : Host) : List TabRef :=
  match getCurrentWindowTabsBody h with
  | none => []
  | some l => l

/-- The bounds computed by `createReferenceWindow`: 20% of the current
width (floored), full height, at the right edge of the current window. -/
def referenceBoundsOf (cw : WindowDescriptor) : Rect :=
  ⟨cw.left + cw.width, cw.top, Int.fdiv cw.width 5, cw.height⟩

/-- The module-level `referenceWindows` JavaScript `Set`, modelled as its
elements in insertion order (a JS `Set` iterates in insertion order and
never holds duplicates). -/
abbrev RefRegistry := List Int

/-- `Set.prototype.add`: appends the element unless already present. -/
def setAdd (reg : RefRegistry) (w : Int) : RefRegistry :=
  if w ∈ reg then reg else reg ++ [w]

/-- `createReferenceWindow(tabId)`: validates the id, enforces the 3-window
cap, resolves the tab, reads the current window, creates the reference
window unfocused, and tracks the created window's id.  Returns the
response, the updated registry, and the host requests issued. -/
def createReferenceWindow (h : Host) (referenceWindows : RefRegistry)
    (tabId : JSVal) : Result Int × RefRegistry × List Effect :=
  if ¬ tabId.truthy ∨ ¬ tabId.isNumber then
    (.err .invalidInput, referenceWindows, [])
  else if 3 ≤ referenceWindows.length then
    (.err .referenceLimitReached, referenceWindows, [])
  else
    match h.getTab tabId.num with
    | none => (.err .tabNotFound, referenceWindows, [])
    | some _ =>
      match h.getCurrent with
      | none => (.err .hostOperationFailed, referenceWindows, [])
      | some cw =>
        let rb := referenceBoundsOf cw
        let t := [Effect.createWin tabId.num rb false]
        match h.createWin tabId.num rb false with
        | none => (.err .hostOperationFailed, referenceWindows, t)
        | some none => (.err .hostOperationFailed, referenceWindows, t)
        | some (some wid) => (.ok wid, setAdd referenceWindows wid, t)

/-- `closeReferenceWindow(windowId)`: rejects untracked ids; otherwise
requests host removal and then deletes the entry.  The deletion follows the
awaited removal, so a failed removal jumps to the `catch` and leaves the
entry tracked. -/
def closeReferenceWindow (h : Host) (referenceWindows : RefRegistry)
    (windowId : Int) : Result Int × RefRegistry × List Effect :=
  if windowId ∉ referenceWindows then
    (.err .notTracked, referenceWindows, [])
  else if h.removeOk windowId then
    (.ok windowId, referenceWindows.erase windowId, [.removeWin windowId])
  else
    (.err .hostOperationFailed, referenceWindows, [.removeWin windowId])

/-- `closeAllReferenceWindows()`: issues a removal for every tracked window
(each wrapped in its own `catch`, so individual failures are swallowed),
then reads the count and clears the registry. -/
def closeAllReferenceWindows (_h : Host) (referenceWindows : RefRegistry) :
    Result Nat × RefRegistry × List Effect :=
  (.ok referenceWindows.length, [], referenceWindows.map .removeWin)

/-- The `chrome.windows.onRemoved` listener: drops the closed window from
the registry when it was tracked. -/
def onWindowRemoved (referenceWindows : RefRegistry) (windowId : Int) :
    RefRegistry :=
  if windowId ∈ referenceWindows then referenceWindows.erase windowId
  else referenceWindows

/-- The tab pair chosen by the `quickSplit` message handler:
`leftTab = tabs[findIndex active]`,
`rightTab = tabs[currentIndex + 1] || tabs[0]`.  `none` models the
`TypeError` thrown when no tab is active (`findIndex` returns `-1` and
`tabs[-1].id` faults). -/
def quickSplitPick (tabs : List TabRef) : Option (TabRef × TabRef) :=
  match tabs.findIdx? (fun t => t.active) with
  | none => none
  | some i =>
    match tabs[i]? with
    | none => none
    | some leftTab =>
      match tabs[i+1]? with
      | some rightTab => some (leftTab, rightTab)
      | none =>
        match tabs[0]? with
        | some rightTab => some (leftTab, rightTab)
        | none => none

/-- A concrete tab, used to instantiate host oracles. -/
def tabA : TabRef := ⟨10, true⟩

/-- A concrete tab, used to instantiate host oracles. -/
def tabB : TabRef := ⟨20, false⟩

/-- A current window of odd width 401 holding two tabs. -/
def cwOdd : WindowDescriptor := ⟨1, 0, 0, 401, 600, some [tabA, tabB]⟩

/-- A host whose current window is `cwOdd`, where tabs 10 and 20 resolve,
window creation succeeds (returning id `tabId + 100`) and removal
succeeds. -/
def hostOdd : Host where
  getCurrent := some cwOdd
  getTab := fun n =>
    if n = 10 then some tabA else if n = 20 then some tabB else none
  createWin := fun t _ _ => some (some (t + 100))
  removeOk := fun _ => true

/-- A current window narrower than 400 pixels. -/
def cwSmall : WindowDescriptor := ⟨2, 0, 0, 399, 600, some [tabA, tabB]⟩

/-- `hostOdd` with the too-small current window `cwSmall`. -/
def hostSmall : Host := { hostOdd with getCurrent := some cwSmall }

/-- A current window with four tabs, so the origin survives a split. -/
def cwFour : WindowDescriptor :=
  ⟨5, 0, 0, 800, 600, some [tabA, tabB, ⟨30, false⟩, ⟨40, false⟩]⟩

/-- `hostOdd` with the four-tab current window `cwFour`. -/
def hostFour : Host := { hostOdd with getCurrent := some cwFour }

/-- A host on which every call fails. -/
def hostFailing : Host where
  getCurrent := none
  getTab := fun _ => none
  createWin := fun _ _ _ => none
  removeOk := fun _ => false

/-- `hostOdd` with window removal always failing. -/
def hostRemoveFails : Host := { hostOdd with removeOk := fun _ => false }

/-- A current window with tabs [A(active), B, C]. -/
def cwQuick3 : WindowDescriptor :=
  ⟨3, 0, 0, 800, 600, some [⟨1, true⟩, ⟨2, false⟩, ⟨3, false⟩]⟩

/-- A host whose current window holds tabs [A(active), B, C]. -/
def hostQuick3 : Host where
  getCurrent := some cwQuick3
  getTab := fun n =>
    if n = 1 then some ⟨1, true⟩
    else if n = 2 then some ⟨2, false⟩
    else if n = 3 then some ⟨3, false⟩ else none
  createWin := fun t _ _ => some (some (t + 100))
  removeOk := fun _ => true

/-- A current window with tabs [A, B(active)]: the active tab is last. -/
def cwQuick2 : WindowDescriptor :=
  ⟨4, 0, 0, 800, 600, some [⟨1, false⟩, ⟨2, true⟩]⟩

/-- A host whose current window holds tabs [A, B(active)]. -/
def hostQuick2 : Host := { hostQuick3 with getCurrent := some cwQuick2 }

/-- The `quickSplit` message handler: fetches the current tabs, requires at
least two, picks the active tab and its successor (wrapping), and delegates
to `splitWindow`.  A fault while picking is caught by the listener's outer
`catch` and surfaces as a host failure. -/
def quickSplitHandler (h : Host) : Result (Int × Int) × List Effect :=
  let tabs := getCurrentWindowTabs h
  if 2 ≤ tabs.length then
    match quickSplitPick tabs with
    | some (leftTab, rightTab) =>
      splitWindow h (.vNum leftTab.id) (.vNum rightTab.id)
    | none => (.err .hostOperationFailed, [])
  else
    (.err .insufficientTabs, [])

/-! ## Theorems -/

/-- C2 counterexample: tab id `0` is a non-null integer, and `0 ≠ 5`, yet
`splitWindow(0, 5)` fails with `InvalidInput`: the JS falsiness check
`!leftTabId` rejects `0`, so not every pair of distinct non-null integer
ids passes validation. -/
theorem splitWindow_zero_id_invalidInput :
    (JSVal.vNum 0).isNumber = true ∧ JSVal.vNum 0 ≠ JSVal.vNum 5 ∧
    (splitWindow hostOdd (.vNum 0) (.vNum 5)).1 = .err .invalidInput := by
  decide

/-- C2 (amended): `splitWindow` fails with `InvalidInput` exactly when the
two arguments are not both truthy numbers (non-null, non-`undefined`,
non-zero) or are not distinct; in particular `splitWindow(id, id)` fails
with `InvalidInput` for every id value. -/
theorem splitWindow_invalidInput_iff (h : Host) (l r : JSVal) :
    ((splitWindow h l r).1 = .err .invalidInput ↔
      ¬(l.truthy = true ∧ r.truthy = true ∧ l.isNumber = true ∧
        r.isNumber = true ∧ l ≠ r)) ∧
    (splitWindow h l l).1 = .err .invalidInput := by
  constructor
  · constructor
    · intro hres hv
      obtain ⟨hl, hr, hln, hrn, hne⟩ := hv
      revert hres
      unfold splitWindow
      rw [if_neg (by simp [hl, hr, hln, hrn]), if_neg hne]
      cases hcg : h.getCurrent with
      | none => simp
      | some cw =>
        by_cases hd : cw.width < 400 ∨ cw.height < 300
        · simp [hd]
        · simp only [if_neg hd]
          cases hgl : h.getTab l.num with
          | none => simp
          | some lt =>
            cases hgr : h.getTab r.num with
            | none => simp
            | some rt =>
              simp only []
              cases hc1 : h.createWin l.num (leftBoundsOf cw) true with
              | none => simp
              | some lw =>
                cases hc2 : h.createWin r.num (rightBoundsOf cw) false with
                | none => simp
                | some rw =>
                  cases lw <;> cases rw <;> simp only [] <;>
                    (try split) <;> (try split) <;> simp
    · intro hv
      by_cases hval : ¬(l.truthy = true) ∨ ¬(r.truthy = true) ∨
          ¬(l.isNumber = true) ∨ ¬(r.isNumber = true)
      · unfold splitWindow
        rw [if_pos hval]
      · push_neg at hval
        obtain ⟨hl, hr, hln, hrn⟩ := hval
        have heq : l = r := by
          by_contra hne
          exact hv ⟨hl, hr, hln, hrn, hne⟩
        unfold splitWindow
        rw [if_neg (by simp [hl, hr, hln, hrn]), if_pos heq]
  · by_cases hval : ¬(l.truthy = true) ∨ ¬(l.truthy = true) ∨
        ¬(l.isNumber = true) ∨ ¬(l.isNumber = true)
    · unfold splitWindow
      rw [if_pos hval]
    · unfold splitWindow
      rw [if_neg hval, if_pos rfl]

/-- Reduction of `splitWindow` once validation, the current-window fetch,
the dimension check and both tab lookups have succeeded: only the two
creations and the conditional removal remain. -/
theorem splitWindow_valid_eq (h : Host) (l r : JSVal) (cw : WindowDescriptor)
    (lt rt : TabRef)
    (hl : l.truthy = true) (hr : r.truthy = true)
    (hln : l.isNumber = true) (hrn : r.isNumber = true)
    (hne : l ≠ r) (hcur : h.getCurrent = some cw)
    (hd : ¬(cw.width < 400 ∨ cw.height < 300))
    (hlt : h.getTab l.num = some lt) (hrt : h.getTab r.num = some rt) :
    splitWindow h l r =
      match h.createWin l.num (leftBoundsOf cw) true with
      | none => (.err .hostOperationFailed,
          [.createWin l.num (leftBoundsOf cw) true])
      | some lw =>
        match h.createWin r.num (rightBoundsOf cw) false with
        | none => (.err .hostOperationFailed,
            [.createWin l.num (leftBoundsOf cw) true,
             .createWin r.num (rightBoundsOf cw) false])
        | some rw =>
          match lw, rw with
          | some lwId, some rwId =>
            if (cw.tabs.getD []).length ≤ 2 then
              if h.removeOk cw.id then
                (.ok (lwId, rwId),
                 [.createWin l.num (leftBoundsOf cw) true,
                  .createWin r.num (rightBoundsOf cw) false,
                  .removeWin cw.id])
              else
                (.err .hostOperationFailed,
                 [.createWin l.num (leftBoundsOf cw) true,
                  .createWin r.num (rightBoundsOf cw) false,
                  .removeWin cw.id])
            else
              (.ok (lwId, rwId),
               [.createWin l.num (leftBoundsOf cw) true,
                .createWin r.num (rightBoundsOf cw) false])
          | _, _ =>
            (.err .hostOperationFailed,
             [.createWin l.num (leftBoundsOf cw) true,
              .createWin r.num (rightBoundsOf cw) false]) := by
  unfold splitWindow
  rw [if_neg (by simp [hl, hr, hln, hrn]), if_neg hne, hcur]
  simp only [if_neg hd, hlt, hrt]
  rfl

/-- C1 counterexample: at window width 401 (≥ 400) the two created
rectangles both have width `floor(401/2) = 200`, so their widths sum to
400, not 401: the right rectangle's width is `halfWidth`, not
`width - halfWidth`, and the split does not tile an odd-width window. -/
theorem splitWindow_odd_width_not_tiled :
    cwOdd.width = 401 ∧
    (splitWindow hostOdd (.vNum 10) (.vNum 20)).2 =
      [.createWin 10 ⟨0, 0, 200, 600⟩ true,
       .createWin 20 ⟨200, 0, 200, 600⟩ false,
       .removeWin 1] ∧
    (200 : Int) + 200 ≠ 401 := by
  decide

/-- C1 (amended): for every window accepted by `splitWindow`
(width ≥ 400, height ≥ 300), both computed rectangles have width
`floor(width / 2)` and height equal to the original height, and the right
rectangle starts at `left + floor(width / 2)`; the two widths sum to
`2 * floor(width / 2)` — exactly the original width when it is even, and
the original width minus one when it is odd. -/
theorem splitWindow_bounds_halfWidth (h : Host) (l r : JSVal)
    (cw : WindowDescriptor) (lt rt : TabRef)
    (hl : l.truthy = true) (hr : r.truthy = true)
    (hln : l.isNumber = true) (hrn : r.isNumber = true)
    (hne : l ≠ r) (hcur : h.getCurrent = some cw)
    (hW : 400 ≤ cw.width) (hH : 300 ≤ cw.height)
    (hlt : h.getTab l.num = some lt) (hrt : h.getTab r.num = some rt) :
    (splitWindow h l r).2.take 1 =
      [.createWin l.num (leftBoundsOf cw) true] ∧
    (∀ x, h.createWin l.num (leftBoundsOf cw) true = some x →
      (splitWindow h l r).2.take 2 =
        [.createWin l.num (leftBoundsOf cw) true,
         .createWin r.num (rightBoundsOf cw) false]) ∧
    (leftBoundsOf cw).width = halfWidthOf cw ∧
    (rightBoundsOf cw).width = halfWidthOf cw ∧
    (rightBoundsOf cw).left = cw.left + halfWidthOf cw ∧
    (leftBoundsOf cw).height = cw.height ∧
    (rightBoundsOf cw).height = cw.height ∧
    (leftBoundsOf cw).width + (rightBoundsOf cw).width =
      2 * halfWidthOf cw ∧
    (2 ∣ cw.width →
      (leftBoundsOf cw).width + (rightBoundsOf cw).width = cw.width) ∧
    (¬ 2 ∣ cw.width →
      (leftBoundsOf cw).width + (rightBoundsOf cw).width = cw.width - 1) := by
  have hd : ¬(cw.width < 400 ∨ cw.height < 300) := by omega
  have heq := splitWindow_valid_eq h l r cw lt rt hl hr hln hrn hne hcur hd hlt hrt
  have hfd : halfWidthOf cw = cw.width / 2 :=
    Int.fdiv_eq_ediv _ (by omega)
  refine ⟨?_, ?_, rfl, rfl, rfl, rfl, rfl, ?_, ?_, ?_⟩
  · rw [heq]
    cases hc1 : h.createWin l.num (leftBoundsOf cw) true with
    | none => simp
    | some lw =>
      cases hc2 : h.createWin r.num (rightBoundsOf cw) false with
      | none => simp
      | some rw =>
        cases lw <;> cases rw <;> simp only [] <;>
          (try split) <;> (try split) <;> simp
  · intro x hc1
    rw [heq, hc1]
    cases hc2 : h.createWin r.num (rightBoundsOf cw) false with
    | none => simp
    | some rw =>
      cases x <;> cases rw <;> simp only [] <;>
        (try split) <;> (try split) <;> simp
  · show halfWidthOf cw + halfWidthOf cw = 2 * halfWidthOf cw
    ring
  · intro hdvd
    show halfWidthOf cw + halfWidthOf cw = cw.width
    rw [hfd]
    omega
  · intro hndvd
    show halfWidthOf cw + halfWidthOf cw = cw.width - 1
    rw [hfd]
    omega

/-- Witness for the amended C1 theorem at the concrete host `hostOdd`. -/
theorem splitWindow_bounds_halfWidth_witness :
    (splitWindow hostOdd (.vNum 10) (.vNum 20)).2.take 1 =
      [Effect.createWin 10 (leftBoundsOf cwOdd) true] ∧
    (leftBoundsOf cwOdd).height = cwOdd.height ∧
    ¬ 2 ∣ cwOdd.width ∧
    (leftBoundsOf cwOdd).width + (rightBoundsOf cwOdd).width =
      cwOdd.width - 1 := by
  have h := splitWindow_bounds_halfWidth hostOdd (.vNum 10) (.vNum 20) cwOdd
    tabA tabB (by decide) (by decide) (by decide) (by decide) (by decide)
    rfl (by decide) (by decide) (by decide) (by decide)
  exact ⟨h.1, h.2.2.2.2.2.1, by decide, h.2.2.2.2.2.2.2.2.2 (by decide)⟩

/-- C3: once both tab ids pass validation and the current window has been
fetched, `splitWindow` fails with `WindowTooSmall` exactly when the window
has width < 400 or height < 300, and in that case it issues no
window-creation or window-removal request. -/
theorem splitWindow_windowTooSmall_iff (h : Host) (l r : JSVal)
    (cw : WindowDescriptor)
    (hl : l.truthy = true) (hr : r.truthy = true)
    (hln : l.isNumber = true) (hrn : r.isNumber = true)
    (hne : l ≠ r) (hcur : h.getCurrent = some cw) :
    ((splitWindow h l r).1 = .err .windowTooSmall ↔
      (cw.width < 400 ∨ cw.height < 300)) ∧
    ((cw.width < 400 ∨ cw.height < 300) → (splitWindow h l r).2 = []) := by
  unfold splitWindow
  rw [if_neg (by simp [hl, hr, hln, hrn]), if_neg hne, hcur]
  simp only []
  by_cases hd : cw.width < 400 ∨ cw.height < 300
  · simp [hd]
  · refine ⟨⟨fun hres => ?_, fun hdd => absurd hdd hd⟩,
      fun hdd => absurd hdd hd⟩
    rw [if_neg hd] at hres
    revert hres
    cases hgl : h.getTab l.num with
    | none => simp
    | some lt =>
      cases hgr : h.getTab r.num with
      | none => simp
      | some rt =>
        simp only []
        cases hc1 : h.createWin l.num (leftBoundsOf cw) true with
        | none => simp
        | some lw =>
          cases hc2 : h.createWin r.num (rightBoundsOf cw) false with
          | none => simp
          | some rw =>
            cases lw <;> cases rw <;> simp only [] <;>
              (try split) <;> (try split) <;> simp

/-- Witness for the C3 theorem: `hostSmall`'s current window is 399 wide,
so a valid pair of tab ids is answered with `WindowTooSmall` and no host
request is issued. -/
theorem splitWindow_windowTooSmall_iff_witness :
    (splitWindow hostSmall (.vNum 10) (.vNum 20)).1 =
      .err .windowTooSmall ∧
    (splitWindow hostSmall (.vNum 10) (.vNum 20)).2 = [] := by
  have h := splitWindow_windowTooSmall_iff hostSmall (.vNum 10) (.vNum 20)
    cwSmall (by decide) (by decide) (by decide) (by decide) (by decide) rfl
  exact ⟨h.1.mpr (by decide), h.2 (by decide)⟩

/-- C4: when `splitWindow` succeeds, it has issued a removal request for
the originating window exactly once when that window held at most two tabs
before the split, and no removal request at all when it held more. -/
theorem splitWindow_origin_removal_policy (h : Host) (l r : JSVal)
    (cw : WindowDescriptor) (lw rw : Int)
    (hcur : h.getCurrent = some cw)
    (hok : (splitWindow h l r).1 = .ok (lw, rw)) :
    ((cw.tabs.getD []).length ≤ 2 →
      (splitWindow h l r).2.count (.removeWin cw.id) = 1) ∧
    (2 < (cw.tabs.getD []).length →
      ∀ w, Effect.removeWin w ∉ (splitWindow h l r).2) := by
  unfold splitWindow at hok ⊢
  by_cases hv1 : ¬ l.truthy ∨ ¬ r.truthy ∨ ¬ l.isNumber ∨ ¬ r.isNumber
  · rw [if_pos hv1] at hok
    exact absurd hok (by simp)
  · simp only [if_neg hv1] at hok ⊢
    by_cases hv2 : l = r
    · rw [if_pos hv2] at hok
      exact absurd hok (by simp)
    · simp only [if_neg hv2] at hok ⊢
      simp only [hcur] at hok ⊢
      by_cases hd : cw.width < 400 ∨ cw.height < 300
      · rw [if_pos hd] at hok
        exact absurd hok (by simp)
      · simp only [if_neg hd] at hok ⊢
        rcases hgl : h.getTab l.num with _ | lt
        · simp only [hgl] at hok
          exact absurd hok (by simp)
        · rcases hgr : h.getTab r.num with _ | rt
          · simp only [hgl, hgr] at hok
            exact absurd hok (by simp)
          · simp only [hgl, hgr] at hok ⊢
            rcases hc1 : h.createWin l.num (leftBoundsOf cw) true with _ | lw'
            · simp only [hc1] at hok
              exact absurd hok (by simp)
            · rcases hc2 : h.createWin r.num (rightBoundsOf cw) false
                with _ | rw'
              · simp only [hc1, hc2] at hok
                exact absurd hok (by simp)
              · simp only [hc1, hc2] at hok ⊢
                rcases lw' with _ | lwId
                · simp at hok
                · rcases rw' with _ | rwId
                  · simp at hok
                  · simp only [] at hok ⊢
                    by_cases hlen : (cw.tabs.getD []).length ≤ 2
                    · simp only [if_pos hlen] at hok ⊢
                      by_cases hrm : h.removeOk cw.id
                      · simp only [if_pos hrm] at hok ⊢
                        refine ⟨fun _ => ?_, fun hgt => absurd hlen (by omega)⟩
                        simp [List.count_cons]
                      · rw [if_neg hrm] at hok
                        exact absurd hok (by simp)
                    · simp only [if_neg hlen] at hok ⊢
                      refine ⟨fun hle => absurd hle hlen, fun _ w => ?_⟩
                      simp

/-- Witness for the C4 theorem: a successful split of `hostOdd`'s two-tab
window removes the origin exactly once, and of `hostFour`'s four-tab
window issues no removal. -/
theorem splitWindow_origin_removal_policy_witness :
    (splitWindow hostOdd (.vNum 10) (.vNum 20)).1 = .ok (110, 120) ∧
    (splitWindow hostOdd (.vNum 10) (.vNum 20)).2.count
      (.removeWin cwOdd.id) = 1 ∧
    (splitWindow hostFour (.vNum 10) (.vNum 20)).1 = .ok (110, 120) ∧
    Effect.removeWin cwFour.id ∉ (splitWindow hostFour (.vNum 10) (.vNum 20)).2 := by
  refine ⟨by decide, ?_, by decide, ?_⟩
  · exact (splitWindow_origin_removal_policy hostOdd (.vNum 10) (.vNum 20)
      cwOdd 110 120 rfl (by decide)).1 (by decide)
  · exact (splitWindow_origin_removal_policy hostFour (.vNum 10) (.vNum 20)
      cwFour 110 120 rfl (by decide)).2 (by decide) cwFour.id

/-- C5 counterexample: with 3 reference windows tracked,
`createReferenceWindow(0)` fails with `InvalidInput`, not
`ReferenceLimitReached`: the falsiness check on the tab id runs before the
limit check, so the limit error is not returned for every tab id. -/
theorem createReferenceWindow_zero_id_at_limit_invalidInput :
    ([1, 2, 3] : RefRegistry).length = 3 ∧
    (createReferenceWindow hostOdd [1, 2, 3] (.vNum 0)).1 =
      .err .invalidInput ∧
    CoreError.invalidInput ≠ CoreError.referenceLimitReached := by
  decide

/-- C5 (amended): every registry operation preserves `size ≤ 3`, and
`createReferenceWindow` invoked while 3 entries are tracked fails without
touching the host or the registry — with `ReferenceLimitReached` for every
truthy numeric tab id (`InvalidInput` is returned first for a null,
undefined or zero id). -/
theorem referenceRegistry_bounded (h : Host) (reg : RefRegistry)
    (t : JSVal) (w : Int) :
    (reg.length ≤ 3 →
      (createReferenceWindow h reg t).2.1.length ≤ 3 ∧
      (closeReferenceWindow h reg w).2.1.length ≤ 3 ∧
      (closeAllReferenceWindows h reg).2.1.length ≤ 3 ∧
      (onWindowRemoved reg w).length ≤ 3) ∧
    (reg.length = 3 → t.truthy = true → t.isNumber = true →
      createReferenceWindow h reg t =
        (.err .referenceLimitReached, reg, [])) := by
  constructor
  · intro h3
    refine ⟨?_, ?_, ?_, ?_⟩
    · unfold createReferenceWindow
      split
      · exact h3
      · split
        · exact h3
        · rename_i hlim
          cases hgt : h.getTab t.num with
          | none => exact h3
          | some tb =>
            cases hgc : h.getCurrent with
            | none => exact h3
            | some cw =>
              dsimp only
              cases hcw : h.createWin t.num (referenceBoundsOf cw) false with
              | none => exact h3
              | some ow =>
                cases ow with
                | none => exact h3
                | some wid =>
                  show (setAdd reg wid).length ≤ 3
                  unfold setAdd
                  split
                  · exact h3
                  · simp only [List.length_append, List.length_singleton]
                    omega
    · unfold closeReferenceWindow
      split
      · exact h3
      · split
        · exact le_trans (List.erase_sublist _ _).length_le h3
        · exact h3
    · simp [closeAllReferenceWindows]
    · unfold onWindowRemoved
      split
      · exact le_trans (List.erase_sublist _ _).length_le h3
      · exact h3
  · intro h3 ht hn
    unfold createReferenceWindow
    rw [if_neg (by simp [ht, hn]), if_pos (by omega)]

/-- Witness for the amended C5 theorem: at the 3-entry registry a truthy
numeric tab id gets `ReferenceLimitReached` with registry and effects
untouched, and a creation from a 2-entry registry stays within the bound. -/
theorem referenceRegistry_bounded_witness :
    createReferenceWindow hostOdd [1, 2, 3] (.vNum 10) =
      (.err .referenceLimitReached, [1, 2, 3], []) ∧
    (createReferenceWindow hostOdd [1, 2] (.vNum 10)).2.1.length ≤ 3 := by
  refine ⟨?_, ?_⟩
  · exact (referenceRegistry_bounded hostOdd [1, 2, 3] (.vNum 10) 1).2
      (by decide) (by decide) (by decide)
  · exact ((referenceRegistry_bounded hostOdd [1, 2] (.vNum 10) 1).1
      (by decide)).1

/-- C6 counterexample: for a tracked window whose host removal fails, the
registry entry is NOT deleted — the `delete` follows the awaited `remove`,
so the exception skips it and the call fails with the entry still
tracked. -/
theorem closeReferenceWindow_failed_remove_keeps_entry :
    closeReferenceWindow hostRemoveFails [5] 5 =
      (.err .hostOperationFailed, [5], [.removeWin 5]) ∧
    (5 : Int) ∈ (closeReferenceWindow hostRemoveFails [5] 5).2.1 := by
  decide

/-- C6 (amended): `closeReferenceWindow` fails with `NotTracked` on an
untracked id, leaving the registry unchanged; on a tracked id it requests
host removal, and deletes the entry only when that removal succeeds — when
the removal fails the entry remains tracked and the call returns
`HostOperationFailed`. -/
theorem closeReferenceWindow_spec (h : Host) (reg : RefRegistry) (w : Int) :
    (w ∉ reg → closeReferenceWindow h reg w = (.err .notTracked, reg, [])) ∧
    (w ∈ reg →
      (closeReferenceWindow h reg w).2.2 = [.removeWin w] ∧
      (h.removeOk w = true →
        closeReferenceWindow h reg w =
          (.ok w, reg.erase w, [.removeWin w])) ∧
      (h.removeOk w = false →
        closeReferenceWindow h reg w =
          (.err .hostOperationFailed, reg, [.removeWin w]))) := by
  constructor
  · intro hw
    unfold closeReferenceWindow
    rw [if_pos hw]
  · intro hw
    unfold closeReferenceWindow
    rw [if_neg (not_not_intro hw)]
    refine ⟨?_, ?_, ?_⟩
    · split <;> rfl
    · intro hr
      rw [if_pos hr]
    · intro hr
      rw [if_neg (by simp [hr])]

/-- Witness for the amended C6 theorem on one-element registries. -/
theorem closeReferenceWindow_spec_witness :
    closeReferenceWindow hostOdd [5] 6 = (.err .notTracked, [5], []) ∧
    closeReferenceWindow hostOdd [5] 5 = (.ok 5, [], [.removeWin 5]) ∧
    closeReferenceWindow hostRemoveFails [7] 7 =
      (.err .hostOperationFailed, [7], [.removeWin 7]) := by
  refine ⟨?_, ?_, ?_⟩
  · exact (closeReferenceWindow_spec hostOdd [5] 6).1 (by decide)
  · exact (((closeReferenceWindow_spec hostOdd [5] 5).2 (by decide)).2.1 rfl)
  · exact (((closeReferenceWindow_spec hostRemoveFails [7] 7).2
      (by decide)).2.2 rfl)

/-- C7: `closeAllReferenceWindows` issues a removal request for every
tracked window regardless of individual failures (the host's removal
outcomes are never consulted), always leaves the registry empty, and
reports the count of entries that were tracked before clearing. -/
theorem closeAllReferenceWindows_spec (h : Host) (reg : RefRegistry) :
    (closeAllReferenceWindows h reg).2.1 = [] ∧
    (closeAllReferenceWindows h reg).1 = .ok reg.length ∧
    ∀ w : Int,
      Effect.removeWin w ∈ (closeAllReferenceWindows h reg).2.2 ↔ w ∈ reg := by
  refine ⟨rfl, rfl, fun w => ?_⟩
  simp [closeAllReferenceWindows, List.mem_map]

/-- C9: `createReferenceWindow` is atomic with respect to the registry:
every failure leaves the registry unchanged, and a success means the host
window creation succeeded and exactly the returned window id was added. -/
theorem createReferenceWindow_atomic (h : Host) (reg : RefRegistry)
    (t : JSVal) :
    (∀ e, (createReferenceWindow h reg t).1 = .err e →
      (createReferenceWindow h reg t).2.1 = reg) ∧
    (∀ wid, (createReferenceWindow h reg t).1 = .ok wid →
      ∃ cw, h.getCurrent = some cw ∧
        h.createWin t.num (referenceBoundsOf cw) false = some (some wid) ∧
        (createReferenceWindow h reg t).2.1 = setAdd reg wid) := by
  unfold createReferenceWindow
  split
  · exact ⟨fun e _ => rfl, fun wid hok => absurd hok (by simp)⟩
  · split
    · exact ⟨fun e _ => rfl, fun wid hok => absurd hok (by simp)⟩
    · cases hgt : h.getTab t.num with
      | none => exact ⟨fun e _ => rfl, fun wid hok => absurd hok (by simp)⟩
      | some tb =>
        cases hgc : h.getCurrent with
        | none => exact ⟨fun e _ => rfl, fun wid hok => absurd hok (by simp)⟩
        | some cw =>
          dsimp only
          cases hcw : h.createWin t.num (referenceBoundsOf cw) false with
          | none =>
            exact ⟨fun e _ => rfl, fun wid hok => absurd hok (by simp)⟩
          | some ow =>
            cases ow with
            | none =>
              exact ⟨fun e _ => rfl, fun wid hok => absurd hok (by simp)⟩
            | some wid0 =>
              refine ⟨fun e he => absurd he (by simp), fun wid hok => ?_⟩
              have hw : wid0 = wid := by simpa using hok
              subst hw
              exact ⟨cw, rfl, hcw, rfl⟩

/-- Witness for the C9 theorem: a successful creation on `hostOdd` tracks
exactly the new window id 110, and a failing one on `hostFailing` leaves
the registry unchanged. -/
theorem createReferenceWindow_atomic_witness :
    (createReferenceWindow hostOdd [] (.vNum 10)).1 = .ok 110 ∧
    (∃ cw, hostOdd.getCurrent = some cw ∧
      hostOdd.createWin (JSVal.vNum 10).num (referenceBoundsOf cw) false =
        some (some 110) ∧
      (createReferenceWindow hostOdd [] (.vNum 10)).2.1 = setAdd [] 110) ∧
    (createReferenceWindow hostFailing [] (.vNum 10)).1 =
      .err .tabNotFound ∧
    (createReferenceWindow hostFailing [] (.vNum 10)).2.1 = [] := by
  refine ⟨by decide, ?_, by decide, ?_⟩
  · exact (createReferenceWindow_atomic hostOdd [] (.vNum 10)).2 110
      (by decide)
  · exact (createReferenceWindow_atomic hostFailing [] (.vNum 10)).1
      .tabNotFound (by decide)

/-- C10: `getCurrentWindowTabs` never surfaces an error: it returns the
current window's tab list (defaulting to `[]` when the window reports no
tabs) and the empty list when the host call fails. -/
theorem getCurrentWindowTabs_total (h : Host) :
    (h.getCurrent = none → getCurrentWindowTabs h = []) ∧
    (∀ cw, h.getCurrent = some cw →
      getCurrentWindowTabs h = cw.tabs.getD []) := by
  constructor
  · intro hn
    unfold getCurrentWindowTabs getCurrentWindowTabsBody
    rw [hn]
  · intro cw hc
    unfold getCurrentWindowTabs getCurrentWindowTabsBody
    rw [hc]

/-- Witness for the C10 theorem on a failing host and on `hostOdd`. -/
theorem getCurrentWindowTabs_total_witness :
    getCurrentWindowTabs hostFailing = [] ∧
    getCurrentWindowTabs hostOdd = [tabA, tabB] := by
  exact ⟨(getCurrentWindowTabs_total hostFailing).1 rfl,
    (getCurrentWindowTabs_total hostOdd).2 cwOdd rfl⟩

/-- C8: `quickSplit` answers `InsufficientTabs` when fewer than two tabs
are in the current window; with at least two tabs and an active tab at
index `i`, it delegates to `splitWindow` the pair (tab `i`, tab
`(i+1) mod length`): the tab after the active one, wrapping to the first
tab when the active tab is last. -/
theorem quickSplit_selection (h : Host) :
    ((getCurrentWindowTabs h).length < 2 →
      quickSplitHandler h = (.err .insufficientTabs, [])) ∧
    (∀ i, (getCurrentWindowTabs h).findIdx? (fun t => t.active) = some i →
      2 ≤ (getCurrentWindowTabs h).length →
      ∃ leftTab rightTab,
        (getCurrentWindowTabs h)[i]? = some leftTab ∧
        leftTab.active = true ∧
        (getCurrentWindowTabs h)[(i + 1) % (getCurrentWindowTabs h).length]? =
          some rightTab ∧
        quickSplitHandler h =
          splitWindow h (.vNum leftTab.id) (.vNum rightTab.id)) := by
  constructor
  · intro hlt
    unfold quickSplitHandler
    dsimp only
    rw [if_neg (by omega)]
  · intro i hfind hlen
    obtain ⟨hi, hpi, -⟩ := List.findIdx?_eq_some_iff_getElem.mp hfind
    have h0 : 0 < (getCurrentWindowTabs h).length := by omega
    by_cases hsucc : i + 1 < (getCurrentWindowTabs h).length
    · refine ⟨(getCurrentWindowTabs h)[i], (getCurrentWindowTabs h)[i + 1],
        List.getElem?_eq_getElem hi, by simpa using hpi, ?_, ?_⟩
      · rw [Nat.mod_eq_of_lt hsucc]
        exact List.getElem?_eq_getElem hsucc
      · have hpick : quickSplitPick (getCurrentWindowTabs h) =
            some ((getCurrentWindowTabs h)[i], (getCurrentWindowTabs h)[i + 1]) := by
          simp only [quickSplitPick, hfind, List.getElem?_eq_getElem hi,
            List.getElem?_eq_getElem hsucc]
        unfold quickSplitHandler
        dsimp only
        rw [if_pos hlen, hpick]
    · have hieq : i + 1 = (getCurrentWindowTabs h).length := by omega
      have hnone : (getCurrentWindowTabs h)[i + 1]? = none :=
        List.getElem?_eq_none (by omega)
      refine ⟨(getCurrentWindowTabs h)[i], (getCurrentWindowTabs h)[0],
        List.getElem?_eq_getElem hi, by simpa using hpi, ?_, ?_⟩
      · rw [hieq, Nat.mod_self]
        exact List.getElem?_eq_getElem h0
      · have hpick : quickSplitPick (getCurrentWindowTabs h) =
            some ((getCurrentWindowTabs h)[i], (getCurrentWindowTabs h)[0]) := by
          simp only [quickSplitPick, hfind, List.getElem?_eq_getElem hi, hnone,
            List.getElem?_eq_getElem h0]
        unfold quickSplitHandler
        dsimp only
        rw [if_pos hlen, hpick]

/-- Witness for the C8 theorem: with tabs [A(active), B, C] the pair
(A, B) is delegated; with tabs [A, B(active)] the wrap-around pair (B, A);
with no tabs the handler answers `InsufficientTabs`. -/
theorem quickSplit_selection_witness :
    (getCurrentWindowTabs hostQuick3).findIdx? (fun t => t.active) =
      some 0 ∧
    (∃ leftTab rightTab,
      (getCurrentWindowTabs hostQuick3)[0]? = some leftTab ∧
      leftTab.active = true ∧
      (getCurrentWindowTabs hostQuick3)[(0 + 1) %
        (getCurrentWindowTabs hostQuick3).length]? = some rightTab ∧
      quickSplitHandler hostQuick3 =
        splitWindow hostQuick3 (.vNum leftTab.id) (.vNum rightTab.id)) ∧
    (∃ leftTab rightTab,
      (getCurrentWindowTabs hostQuick2)[1]? = some leftTab ∧
      leftTab.active = true ∧
      (getCurrentWindowTabs hostQuick2)[(1 + 1) %
        (getCurrentWindowTabs hostQuick2).length]? = some rightTab ∧
      quickSplitHandler hostQuick2 =
        splitWindow hostQuick2 (.vNum leftTab.id) (.vNum rightTab.id)) ∧
    quickSplitHandler hostQuick3 = splitWindow hostQuick3 (.vNum 1) (.vNum 2) ∧
    quickSplitHandler hostQuick2 = splitWindow hostQuick2 (.vNum 2) (.vNum 1) ∧
    quickSplitHandler hostFailing = (.err .insufficientTabs, []) := by
  refine ⟨by decide, ?_, ?_, by decide, by decide, ?_⟩
  · exact (quickSplit_selection hostQuick3).2 0 (by decide) (by decide)
  · exact (quickSplit_selection hostQuick2).2 1 (by decide) (by decide)
  · exact (quickSplit_selection hostFailing).1 (by decide)

/-- Witness for the amended C2 theorem: the diagonal conjunct at a concrete
id, and the characterisation at the rejected pair (0, 5). -/
theorem splitWindow_invalidInput_iff_witness :
    (splitWindow hostOdd (.vNum 7) (.vNum 7)).1 = .err .invalidInput ∧
    (splitWindow hostOdd (.vNum 0) (.vNum 5)).1 = .err .invalidInput :=
  ⟨(splitWindow_invalidInput_iff hostOdd (.vNum 7) (.vNum 7)).2,
   (splitWindow_invalidInput_iff hostOdd (.vNum 0) (.vNum 5)).1.mpr
     (by decide)⟩

/-- Witness for the C7 theorem on a two-entry registry whose host removals
all fail. -/
theorem closeAllReferenceWindows_spec_witness :
    (closeAllReferenceWindows hostRemoveFails [4, 6]).2.1 = [] ∧
    (closeAllReferenceWindows hostRemoveFails [4, 6]).1 = .ok 2 ∧
    Effect.removeWin 4 ∈ (closeAllReferenceWindows hostRemoveFails [4, 6]).2.2 :=
  ⟨(closeAllReferenceWindows_spec hostRemoveFails [4, 6]).1,
   (closeAllReferenceWindows_spec hostRemoveFails [4, 6]).2.1,
   ((closeAllReferenceWindows_spec hostRemoveFails [4, 6]).2.2 4).mpr
     (by decide)⟩
